import Mathlib

/-!
Shallow embedding of `src/collector.py` (class `SpotifyDataCollector`):
the playlist-to-dataset collection pipeline.

Python values are modelled by `PyVal` (dynamically-typed JSON-like data),
Python exceptions by `Except Unit`, the filesystem by an explicit `FS`
state, and the two external providers (Spotify pagination, Genius lyrics
search) by function parameters.
-/

/-- A Python value as it appears in the collector: `None`, booleans,
integers, strings, lists, and string-keyed dicts. -/
inductive PyVal : Type where
  | null : PyVal
  | bool : Bool → PyVal
  | int : Int → PyVal
  | str : String → PyVal
  | list : List PyVal → PyVal
  | dict : List (String × PyVal) → PyVal

/-- Python truthiness: `None`, `False`, `0`, `""`, `[]`, `{}` are falsy. -/
def truthy : PyVal → Bool
  | .null => false
  | .bool b => b
  | .int n => n != 0
  | .str s => s != ""
  | .list xs => !xs.isEmpty
  | .dict kvs => !kvs.isEmpty

/-- `isinstance(v, dict)`. -/
def isDict : PyVal → Bool
  | .dict _ => true
  | _ => false

/-- `v.get(k, d)`: defaulting key lookup. Raises (`AttributeError`) when
`v` is not a dict, exactly as `obj.get` does on a non-dict Python value. -/
def pyGet (v : PyVal) (k : String) (d : PyVal) : Except Unit PyVal :=
  match v with
  | .dict kvs => .ok ((kvs.lookup k).getD d)
  | _ => .error ()

/-- `k in v` for a dict `v` (key membership). -/
def hasKey (v : PyVal) (k : String) : Bool :=
  match v with
  | .dict kvs => (kvs.lookup k).isSome
  | _ => false

/-- `for x in v`: lists yield their elements, strings their characters,
dicts their keys; `None`, booleans and integers raise `TypeError`. -/
def pyIter : PyVal → Except Unit (List PyVal)
  | .list xs => .ok xs
  | .str s => .ok (s.toList.map (fun c => PyVal.str (String.mk [c])))
  | .dict kvs => .ok (kvs.map (fun kv => PyVal.str kv.1))
  | _ => .error ()

/-- A `str.join` operand must itself be a string, else `TypeError`. -/
def asStr : PyVal → Except Unit String
  | .str s => .ok s
  | _ => .error ()

/-- `", ".join(xs)`. -/
def joinComma (xs : List PyVal) : Except Unit String :=
  match xs.mapM asStr with
  | .error e => .error e
  | .ok ss => .ok (String.intercalate ", " ss)

/-- Python `v == s` for a string literal `s`: only a `str` can equal it. -/
def pyEqStr : PyVal → String → Bool
  | .str s, t => s == t
  | _, _ => false

/-- `', '.join([artist.get('name', 'Unknown Artist') for artist in artists
if isinstance(artist, dict)])` (collector.py line 93). -/
def extractArtistNames (artists : PyVal) : Except Unit String :=
  match pyIter artists with
  | .error e => .error e
  | .ok elems =>
    match (elems.filter isDict).mapM
      (fun a => pyGet a "name" (PyVal.str "Unknown Artist")) with
    | .error e => .error e
    | .ok names => joinComma names

/-- `', '.join([artist.get('id', 'Unknown ID') for artist in artists
if isinstance(artist, dict) and 'id' in artist])` (collector.py line 94). -/
def extractArtistIds (artists : PyVal) : Except Unit String :=
  match pyIter artists with
  | .error e => .error e
  | .ok elems =>
    match ((elems.filter isDict).filter (fun a => hasKey a "id")).mapM
      (fun a => pyGet a "id" (PyVal.str "Unknown ID")) with
    | .error e => .error e
    | .ok ids => joinComma ids

/-- `album.get(k, d) if album else d` (collector.py lines 104-105). -/
def albumField (album : PyVal) (k : String) (d : String) : Except Unit PyVal :=
  if truthy album then pyGet album k (PyVal.str d) else .ok (PyVal.str d)

/-- The output row: the Python dict literal built by `get_track_data`. -/
abbrev TrackDict := List (String × PyVal)

/-- The body of the `try:` block of `get_track_data` (collector.py lines
86-118), instrumented with a flag recording whether the lyrics fetcher was
invoked. Returns `none` for a track without an id; any raise propagates
(to be caught by the caller's `except`). The lyrics fetcher itself is the
parameter `f` (the `self.get_lyrics` bound method, which never raises). -/
def tryBodyFull (f : String → PyVal → Option String) (track : PyVal) :
    Except Unit (Option (TrackDict × Bool)) :=
  match pyGet track "id" PyVal.null with
  | .error e => .error e
  | .ok track_id =>
    if truthy track_id then
      match pyGet track "artists" (PyVal.list []) with
      | .error e => .error e
      | .ok artists =>
      match extractArtistNames artists with
      | .error e => .error e
      | .ok artist_names =>
      match extractArtistIds artists with
      | .error e => .error e
      | .ok artist_ids =>
      match pyGet track "name" (PyVal.str "Unknown Track") with
      | .error e => .error e
      | .ok track_name =>
      match pyGet track "album" (PyVal.dict []) with
      | .error e => .error e
      | .ok album =>
      match pyGet track "popularity" (PyVal.int 0) with
      | .error e => .error e
      | .ok popularity =>
      match pyGet track "explicit" (PyVal.bool false) with
      | .error e => .error e
      | .ok explicitFlag =>
      match pyGet track "duration_ms" (PyVal.int 0) with
      | .error e => .error e
      | .ok duration_ms =>
      match albumField album "name" "Unknown Album" with
      | .error e => .error e
      | .ok album_name =>
      match albumField album "release_date" "Unknown Date" with
      | .error e => .error e
      | .ok album_release_date =>
        let doFetch := artist_names != "" && !(pyEqStr track_name "Unknown Track")
        let lyrics : PyVal :=
          if doFetch then
            match f artist_names track_name with
            | some l => PyVal.str l
            | Option.none => PyVal.null
          else PyVal.null
        .ok (some ([("id", track_id), ("name", track_name),
          ("popularity", popularity), ("explicit", explicitFlag),
          ("duration_ms", duration_ms), ("album_name", album_name),
          ("album_release_date", album_release_date),
          ("artist_names", PyVal.str artist_names),
          ("artist_ids", PyVal.str artist_ids), ("lyrics", lyrics)], doFetch))
    else .ok Option.none

/-- `get_track_data` (collector.py lines 80-121), instrumented with the
lyrics-fetch flag. `track_item.get('track')` happens before the `try:`,
so its raise propagates; inside the `try:`, any raise is caught and
converted to a `None` return. -/
def get_track_data_full (f : String → PyVal → Option String)
    (track_item : PyVal) : Except Unit (Option TrackDict) × Bool :=
  match pyGet track_item "track" PyVal.null with
  | .error e => (.error e, false)
  | .ok track =>
    if truthy track then
      match tryBodyFull f track with
      | .ok (some (td, b)) => (.ok (some td), b)
      | .ok Option.none => (.ok Option.none, false)
      | .error _ => (.ok Option.none, false)
    else (.ok Option.none, false)

/-- `get_track_data` as called by the orchestrator. -/
def get_track_data (f : String → PyVal → Option String) (track_item : PyVal) :
    Except Unit (Option TrackDict) :=
  (get_track_data_full f track_item).1

/-- A Genius search hit; `song.lyrics` is its lyric text. -/
structure Song : Type where
  lyrics : String

/-- `get_lyrics` (collector.py lines 68-78). The provider
`g title artist` models `self.genius.search_song(track_name, artist=...)`:
it may raise, and on success yields its ranked hits, of which
`search_song` surfaces the first (or `None`). `get_lyrics` converts both
a miss and a raise to `None`. -/
def get_lyrics (g : PyVal → String → Except Unit (List Song))
    (artist_name : String) (track_name : PyVal) : Option String :=
  match g track_name artist_name with
  | .ok hits =>
    match hits.head? with
    | some song => some song.lyrics
    | Option.none => Option.none
  | .error _ => Option.none

/-- One response page of `sp.playlist_tracks` / `sp.next`: its `items`
and the truthiness of its `next` pointer. -/
structure Page (α : Type) : Type where
  items : List α
  hasNext : Bool

/-- `get_playlist_tracks` (collector.py lines 50-57): start from the
first page, follow `next` while present, extending `tracks` with each
page's items. `p` is the first page; `ps` are the pages `sp.next` serves
in order. -/
def get_playlist_tracks {α : Type} : Page α → List (Page α) → List α
  | p, [] => p.items
  | p, q :: rest =>
    if p.hasNext then p.items ++ get_playlist_tracks q rest else p.items

/-- The provider chain is well formed: every page but the last announces
a next page, and the last does not. -/
def chainOk {α : Type} : Page α → List (Page α) → Bool
  | p, [] => !p.hasNext
  | p, q :: rest => p.hasNext && chainOk q rest

/-- `i % 20 == 0 and i > 0` (collector.py line 137): the throttle test. -/
def sleepAt (i : Nat) : Bool := i % 20 == 0 && decide (0 < i)

/-- The per-entry loop of `collect_playlist_data` (collector.py lines
131-139) from index `i` on: append each non-null `get_track_data` result,
record a throttle sleep after each index passing `sleepAt`. An uncaught
exception from `get_track_data` propagates. -/
def processFrom (f : String → PyVal → Option String) :
    Nat → List PyVal → Except Unit (List TrackDict × List Nat)
  | _, [] => .ok ([], [])
  | i, e :: rest =>
    match get_track_data f e with
    | .error er => .error er
    | .ok r =>
      match processFrom f (i + 1) rest with
      | .error er => .error er
      | .ok (rows, sleeps) =>
        .ok ((match r with | some td => td :: rows | Option.none => rows),
             (if sleepAt i then i :: sleeps else sleeps))

/-- The whole enumerate loop, from index 0. -/
def processEntries (f : String → PyVal → Option String) (es : List PyVal) :
    Except Unit (List TrackDict × List Nat) :=
  processFrom f 0 es

/-- The filesystem state: existing directories and written files. -/
structure FS : Type where
  dirs : List String
  files : List (String × List TrackDict)

/-- `os.path.dirname` for POSIX-style relative paths: everything before
the last separator, `""` when there is none. -/
def dirname (p : String) : String :=
  if p.toList.contains '/' then
    String.mk (((p.toList.reverse.dropWhile (fun c => c != '/')).drop 1).reverse)
  else ""

/-- `os.makedirs(d, exist_ok=True)`: creates `d` (and parents); raises
`FileNotFoundError` when `d` is the empty string, `exist_ok`
notwithstanding. -/
def makedirs (fs : FS) (d : String) : Except Unit FS :=
  if d = "" then .error () else .ok { fs with dirs := d :: fs.dirs }

/-- `df.to_csv(path)`: succeeds when the parent directory exists (the
current directory always does), recording the written rows. -/
def to_csv (fs : FS) (path : String) (rows : List TrackDict) : Except Unit FS :=
  if dirname path = "" || fs.dirs.contains (dirname path) then
    .ok { fs with files := (path, rows) :: fs.files }
  else .error ()

/-- `collect_playlist_data` (collector.py lines 123-149): fetch all
entries, run the enrichment loop, `os.makedirs(os.path.dirname(output))`,
write the CSV, and return the assembled rows (the dataframe). -/
def collect_playlist_data (f : String → PyVal → Option String)
    (p : Page PyVal) (ps : List (Page PyVal)) (fs : FS)
    (output_file : String) : Except Unit (FS × List TrackDict) :=
  match processEntries f (get_playlist_tracks p ps) with
  | .error er => .error er
  | .ok (rows, _sleeps) =>
    match makedirs fs (dirname output_file) with
    | .error er => .error er
    | .ok fs1 =>
      match to_csv fs1 output_file rows with
      | .error er => .error er
      | .ok fs2 => .ok (fs2, rows)

/-- A lyrics fetcher that always misses; used for concrete runs. -/
def noLyrics : String → PyVal → Option String := fun _ _ => Option.none

/-- The record the loop appends for an entry, when any. -/
def recOf (f : String → PyVal → Option String) (e : PyVal) : Option TrackDict :=
  match get_track_data f e with
  | .ok (some td) => some td
  | _ => Option.none

/-- Whether `get_track_data` produced a record. -/
def isOkSome : Except Unit (Option TrackDict) → Bool
  | .ok (some _) => true
  | _ => false

/-- An entry that carries a truthy track dict with a truthy id: exactly
the entries the spec calls "entries with valid ids". -/
def hasValidId (e : PyVal) : Bool :=
  match e with
  | .dict kvs =>
    match kvs.lookup "track" with
    | some (.dict tkvs) =>
      truthy (.dict tkvs) && truthy ((tkvs.lookup "id").getD PyVal.null)
    | _ => false
  | _ => false

/-! ## Supporting lemmas -/

theorem get_track_data_ok_of_dict (f : String → PyVal → Option String)
    (e : PyVal) (h : isDict e = true) :
    ∃ r, get_track_data f e = .ok r := by
  cases e with
  | dict kvs =>
    unfold get_track_data get_track_data_full pyGet
    by_cases ht : truthy ((kvs.lookup "track").getD PyVal.null) = true
    · simp only [ht, if_true]
      rcases htb : tryBodyFull f ((kvs.lookup "track").getD PyVal.null) with er | r
      · exact ⟨Option.none, rfl⟩
      · rcases r with _ | ⟨td, b⟩
        · exact ⟨Option.none, rfl⟩
        · exact ⟨some td, rfl⟩
    · simp only [ht, if_false]
      exact ⟨Option.none, rfl⟩
  | null => simp [isDict] at h
  | bool b => simp [isDict] at h
  | int n => simp [isDict] at h
  | str s => simp [isDict] at h
  | list xs => simp [isDict] at h

theorem get_track_data_none_of_not_valid (f : String → PyVal → Option String)
    (kvs : List (String × PyVal)) (h : hasValidId (.dict kvs) = false) :
    get_track_data f (.dict kvs) = .ok Option.none := by
  unfold get_track_data get_track_data_full
  rcases hlk : kvs.lookup "track" with _ | tv
  · simp [pyGet, hlk, truthy]
  · simp only [hasValidId, hlk] at h
    rcases tv with _ | b | n | s | xs | tkvs
    · simp [pyGet, hlk, truthy]
    · rcases b with _ | _
      · simp [pyGet, hlk, truthy]
      · simp [pyGet, hlk, truthy, tryBodyFull]
    · simp only [pyGet, hlk, Option.getD]
      by_cases ht : truthy (.int n) = true
      · simp [ht, tryBodyFull, pyGet]
      · simp [Bool.not_eq_true] at ht; simp [ht]
    · simp only [pyGet, hlk, Option.getD]
      by_cases ht : truthy (.str s) = true
      · simp [ht, tryBodyFull, pyGet]
      · simp [Bool.not_eq_true] at ht; simp [ht]
    · simp only [pyGet, hlk, Option.getD]
      by_cases ht : truthy (.list xs) = true
      · simp [ht, tryBodyFull, pyGet]
      · simp [Bool.not_eq_true] at ht; simp [ht]
    · simp only [pyGet, hlk, Option.getD]
      rcases Bool.and_eq_false_iff.mp h with ht | hid
      · simp [ht]
      · by_cases ht : truthy (.dict tkvs) = true
        · simp [ht, tryBodyFull, pyGet, hid]
        · simp [Bool.not_eq_true] at ht; simp [ht]

theorem recOf_eq_some {f : String → PyVal → Option String} {e : PyVal}
    {td : TrackDict} (h : get_track_data f e = .ok (some td)) :
    recOf f e = some td := by
  simp [recOf, h]

theorem recOf_eq_none {f : String → PyVal → Option String} {e : PyVal}
    (h : get_track_data f e = .ok Option.none) :
    recOf f e = Option.none := by
  simp [recOf, h]

theorem processFrom_eq (f : String → PyVal → Option String) (es : List PyVal) :
    ∀ i : Nat, (∀ e ∈ es, isDict e = true) →
    processFrom f i es =
      .ok (es.filterMap (recOf f), (List.range' i es.length).filter sleepAt) := by
  induction es with
  | nil => intro i h; rfl
  | cons e rest ih =>
    intro i h
    have hd := h e (List.mem_cons_self e rest)
    obtain ⟨r, hr⟩ := get_track_data_ok_of_dict f e hd
    have hrng : List.range' i (rest.length + 1) = i :: List.range' (i + 1) rest.length := rfl
    unfold processFrom
    rw [hr, ih (i + 1) (fun x hx => h x (List.mem_cons_of_mem e hx))]
    rcases r with _ | td
    · have : recOf f e = Option.none := recOf_eq_none hr
      simp [List.filterMap_cons, this, List.length_cons, hrng, List.filter_cons]
    · have : recOf f e = some td := recOf_eq_some hr
      simp [List.filterMap_cons, this, List.length_cons, hrng, List.filter_cons]

theorem isOkSome_iff {r : Except Unit (Option TrackDict)} :
    isOkSome r = true ↔ ∃ td, r = .ok (some td) := by
  rcases r with er | r
  · simp [isOkSome]
  · rcases r with _ | td
    · simp [isOkSome]
    · simp [isOkSome]

theorem filterMap_recOf_length (f : String → PyVal → Option String)
    (es : List PyVal) (h1 : ∀ e ∈ es, isDict e = true)
    (h2 : ∀ e ∈ es, hasValidId e = true → isOkSome (get_track_data f e) = true) :
    (es.filterMap (recOf f)).length = (es.filter hasValidId).length := by
  induction es with
  | nil => rfl
  | cons e rest ih =>
    have hd := h1 e (List.mem_cons_self e rest)
    have ihr := ih (fun x hx => h1 x (List.mem_cons_of_mem e hx))
      (fun x hx => h2 x (List.mem_cons_of_mem e hx))
    by_cases hv : hasValidId e = true
    · obtain ⟨td, htd⟩ := isOkSome_iff.mp (h2 e (List.mem_cons_self e rest) hv)
      simp [List.filterMap_cons, recOf_eq_some htd, List.filter_cons, hv, ihr]
    · rcases e with _ | b | n | s | xs | kvs
      · simp [isDict] at hd
      · simp [isDict] at hd
      · simp [isDict] at hd
      · simp [isDict] at hd
      · simp [isDict] at hd
      · have hn := get_track_data_none_of_not_valid f kvs (Bool.not_eq_true _ ▸ hv)
        simp [List.filterMap_cons, recOf_eq_none hn, List.filter_cons, hv, ihr]

theorem tryBodyFull_ok_some {f : String → PyVal → Option String}
    {track : PyVal} {td : TrackDict} {b : Bool}
    (h : tryBodyFull f track = .ok (some (td, b))) :
    ∃ track_id artists artist_names artist_ids track_name album popularity
      explicitFlag duration_ms album_name album_release_date,
      pyGet track "id" PyVal.null = .ok track_id ∧ truthy track_id = true ∧
      pyGet track "artists" (PyVal.list []) = .ok artists ∧
      extractArtistNames artists = .ok artist_names ∧
      extractArtistIds artists = .ok artist_ids ∧
      pyGet track "name" (PyVal.str "Unknown Track") = .ok track_name ∧
      pyGet track "album" (PyVal.dict []) = .ok album ∧
      pyGet track "popularity" (PyVal.int 0) = .ok popularity ∧
      pyGet track "explicit" (PyVal.bool false) = .ok explicitFlag ∧
      pyGet track "duration_ms" (PyVal.int 0) = .ok duration_ms ∧
      albumField album "name" "Unknown Album" = .ok album_name ∧
      albumField album "release_date" "Unknown Date" = .ok album_release_date ∧
      b = (artist_names != "" && !(pyEqStr track_name "Unknown Track")) ∧
      td = [("id", track_id), ("name", track_name), ("popularity", popularity),
        ("explicit", explicitFlag), ("duration_ms", duration_ms),
        ("album_name", album_name), ("album_release_date", album_release_date),
        ("artist_names", PyVal.str artist_names),
        ("artist_ids", PyVal.str artist_ids),
        ("lyrics", if b then (match f artist_names track_name with
          | some l => PyVal.str l | Option.none => PyVal.null)
          else PyVal.null)] := by
  unfold tryBodyFull at h
  split at h
  · simp at h
  rename_i track_id hid
  split at h
  case isFalse ht => simp at h
  case isTrue ht =>
  split at h
  · simp at h
  rename_i artists hartists
  split at h
  · simp at h
  rename_i artist_names hnames
  split at h
  · simp at h
  rename_i artist_ids hids
  split at h
  · simp at h
  rename_i track_name hname
  split at h
  · simp at h
  rename_i album halbum
  split at h
  · simp at h
  rename_i popularity hpop
  split at h
  · simp at h
  rename_i explicitFlag hexp
  split at h
  · simp at h
  rename_i duration_ms hdur
  split at h
  · simp at h
  rename_i album_name han
  split at h
  · simp at h
  rename_i album_release_date hard
  simp only [Except.ok.injEq, Option.some.injEq, Prod.mk.injEq] at h
  obtain ⟨h1, h2⟩ := h
  refine ⟨track_id, artists, artist_names, artist_ids, track_name, album,
    popularity, explicitFlag, duration_ms, album_name, album_release_date,
    hid, ht, hartists, hnames, hids, hname, halbum, hpop, hexp, hdur,
    han, hard, h2.symm, ?_⟩
  rw [← h1, h2]

/-! ## Sample data for witnesses -/

/-- A playlist entry wrapping a track with a valid id. -/
def sampleValid : PyVal := .dict [("track", .dict [("id", .str "t1")])]

/-- A playlist entry whose track payload is `None`. -/
def sampleNullTrack : PyVal := .dict [("track", PyVal.null)]

/-- A playlist entry whose track has no id. -/
def sampleNoId : PyVal := .dict [("track", .dict [("name", .str "z")])]

/-- The dict of an entry whose `artists` value is not iterable. -/
def badArtistsKvs : List (String × PyVal) :=
  [("track", .dict [("id", .str "x"), ("artists", .int 5)])]

/-- A 25-entry playlist whose entry 10 carries a `None` track. -/
def mkEntry25 (i : Nat) : PyVal :=
  .dict [("track", if i == 10 then PyVal.null else .dict [("id", .str "t")])]

/-- The 25 entries, in playlist order. -/
def entries25 : List PyVal := (List.range 25).map mkEntry25

/-! ## Claim theorems -/

/-- C2: `get_playlist_tracks` returns the concatenation, in arrival
order, of the item lists of every page, following the provider-supplied
next-page pointer until it is absent; per-page and cross-page order is
preserved since the result is exactly the ordered join. -/
theorem c2_pagination_concat {α : Type} (p : Page α) (ps : List (Page α))
    (h : chainOk p ps = true) :
    get_playlist_tracks p ps = ((p :: ps).map Page.items).flatten := by
  induction ps generalizing p with
  | nil => simp [get_playlist_tracks]
  | cons q rest ih =>
    simp only [chainOk, Bool.and_eq_true] at h
    simp [get_playlist_tracks, h.1, ih q h.2]

/-- C2 witness: pages `[[a, b], [c]]` with next-pointers configured
accordingly yield `[a, b, c]`. -/
theorem c2_pagination_concat_witness :
    chainOk (⟨[0, 1], true⟩ : Page Nat) [⟨[2], false⟩] = true ∧
    get_playlist_tracks (⟨[0, 1], true⟩ : Page Nat) [⟨[2], false⟩] = [0, 1, 2] :=
  ⟨by decide, by rw [c2_pagination_concat _ _ (by decide)]; rfl⟩

/-- C3: the throttle pause fires exactly at the indices passing
`sleepAt`, i.e. at the positive multiples of 20 (index 0 excluded); and
on the concrete 25-entry playlist with a null track at entry 10 the run
yields 24 rows with exactly one pause, at index 20. -/
theorem c3_throttle_cadence (f : String → PyVal → Option String)
    (es : List PyVal) (h : ∀ e ∈ es, isDict e = true) :
    (∃ rows, processEntries f es =
      .ok (rows, (List.range es.length).filter sleepAt)) ∧
    (∀ j : Nat, sleepAt j = true ↔ ∃ k, 0 < k ∧ j = 20 * k) ∧
    (processEntries noLyrics entries25).map (fun out => (out.1.length, out.2)) =
      .ok (24, [20]) := by
  refine ⟨⟨es.filterMap (recOf f), ?_⟩, ?_, rfl⟩
  · rw [processEntries, processFrom_eq f es 0 h, List.range_eq_range']
  · intro j
    simp only [sleepAt, Bool.and_eq_true, beq_iff_eq, decide_eq_true_eq]
    constructor
    · rintro ⟨hm, hp⟩
      exact ⟨j / 20, by omega, by omega⟩
    · rintro ⟨k, hk, rfl⟩
      exact ⟨by omega, by omega⟩

/-- C3 witness at the 25-entry playlist. -/
theorem c3_throttle_cadence_witness :
    (∀ e ∈ entries25, isDict e = true) ∧
    (processEntries noLyrics entries25).map (fun out => (out.1.length, out.2)) =
      .ok (24, [20]) :=
  ⟨by decide, (c3_throttle_cadence noLyrics entries25 (by decide)).2.2⟩

/-- C1 amended: entries without a valid id (null track payload, missing
id, and the like) make `get_track_data` return null and are appended
nowhere; when additionally every valid-id entry extracts without an
exception, the row count equals the number of valid-id entries, and it
is at most the walker's entry count. -/
theorem c1_dataset_excludes_invalid (f : String → PyVal → Option String)
    (p : Page PyVal) (ps : List (Page PyVal))
    (h1 : ∀ e ∈ get_playlist_tracks p ps, isDict e = true)
    (h2 : ∀ e ∈ get_playlist_tracks p ps,
      hasValidId e = true → isOkSome (get_track_data f e) = true) :
    (∀ e ∈ get_playlist_tracks p ps, hasValidId e = false →
      get_track_data f e = .ok Option.none) ∧
    ∃ rows sleeps,
      processEntries f (get_playlist_tracks p ps) = .ok (rows, sleeps) ∧
      rows = (get_playlist_tracks p ps).filterMap (recOf f) ∧
      rows.length = ((get_playlist_tracks p ps).filter hasValidId).length ∧
      rows.length ≤ (get_playlist_tracks p ps).length := by
  constructor
  · intro e he hv
    have hd := h1 e he
    rcases e with _ | b | n | s | xs | kvs
    · simp [isDict] at hd
    · simp [isDict] at hd
    · simp [isDict] at hd
    · simp [isDict] at hd
    · simp [isDict] at hd
    · exact get_track_data_none_of_not_valid f kvs hv
  · refine ⟨_, _, processFrom_eq f _ 0 h1, rfl, ?_, ?_⟩
    · exact filterMap_recOf_length f _ h1 h2
    · rw [filterMap_recOf_length f _ h1 h2]
      exact List.length_filter_le _ _

/-- C1 witness: a 3-entry page (valid, null-track, missing-id) yields
exactly one row. -/
theorem c1_dataset_excludes_invalid_witness :
    (∀ e ∈ get_playlist_tracks (⟨[sampleValid, sampleNullTrack, sampleNoId],
      false⟩ : Page PyVal) [], isDict e = true) ∧
    (∀ e ∈ get_playlist_tracks (⟨[sampleValid, sampleNullTrack, sampleNoId],
      false⟩ : Page PyVal) [], hasValidId e = true →
      isOkSome (get_track_data noLyrics e) = true) ∧
    (∀ e ∈ get_playlist_tracks (⟨[sampleValid, sampleNullTrack, sampleNoId],
      false⟩ : Page PyVal) [], hasValidId e = false →
      get_track_data noLyrics e = .ok Option.none) :=
  ⟨by decide, by decide,
    (c1_dataset_excludes_invalid noLyrics _ _ (by decide) (by decide)).1⟩

/-- C1 counterexample: an entry with a valid id whose `artists` value
is not iterable raises during extraction and is skipped, so the row
count (0) falls short of the valid-id entry count (1): "row count =
entries with valid ids" is not unconditional. -/
theorem c1_counterexample_extraction_failure :
    hasValidId (.dict badArtistsKvs) = true ∧
    processEntries noLyrics [.dict badArtistsKvs] = .ok ([], []) ∧
    ([PyVal.dict badArtistsKvs].filter hasValidId).length = 1 :=
  ⟨rfl, rfl, rfl⟩

/-- C4: on any entry that is a dict (so that the pre-`try` track lookup
succeeds), `get_track_data` never raises: a raise inside the extraction
body is caught and converted to a null return, and a batch of such
entries always completes. -/
theorem c4_extraction_exception_caught (f : String → PyVal → Option String)
    (item : PyVal) (es : List PyVal)
    (h1 : isDict item = true) (h2 : ∀ e ∈ es, isDict e = true) :
    (∃ r, get_track_data f item = .ok r) ∧
    (∀ kvs : List (String × PyVal),
      tryBodyFull f ((kvs.lookup "track").getD PyVal.null) = .error () →
      get_track_data f (.dict kvs) = .ok Option.none) ∧
    (∃ out, processEntries f es = .ok out) := by
  refine ⟨get_track_data_ok_of_dict f item h1, ?_, ?_⟩
  · intro kvs htb
    unfold get_track_data get_track_data_full
    simp only [pyGet]
    by_cases ht : truthy ((kvs.lookup "track").getD PyVal.null) = true
    · simp [ht, htb]
    · simp only [Bool.not_eq_true] at ht
      simp [ht]
  · exact ⟨_, processFrom_eq f es 0 h2⟩

/-- C4 witness: an entry whose `artists` value is not iterable raises
inside extraction; the raise is caught, the entry yields null, and the
one-entry batch completes. -/
theorem c4_extraction_exception_caught_witness :
    isDict (.dict badArtistsKvs) = true ∧
    tryBodyFull noLyrics ((badArtistsKvs.lookup "track").getD PyVal.null) =
      .error () ∧
    get_track_data noLyrics (.dict badArtistsKvs) = .ok Option.none ∧
    (∃ out, processEntries noLyrics [.dict badArtistsKvs] = .ok out) :=
  ⟨by decide, rfl,
    (c4_extraction_exception_caught noLyrics (.dict badArtistsKvs)
      [.dict badArtistsKvs] (by decide) (by decide)).2.1 badArtistsKvs rfl,
    (c4_extraction_exception_caught noLyrics (.dict badArtistsKvs)
      [.dict badArtistsKvs] (by decide) (by decide)).2.2⟩

/-- A lyrics fetcher that always returns the same text. -/
def someWords : String → PyVal → Option String := fun _ _ => some "WORDS"

/-- An entry with a name and two artists, the first carrying an id. -/
def sampleFull : PyVal := .dict [("track", .dict [("id", .str "x"),
  ("name", .str "Song"),
  ("artists", .list [.dict [("name", .str "A"), ("id", .str "a1")],
    .dict [("name", .str "B")]])])]

/-- The record `get_track_data someWords sampleFull` produces. -/
def sampleFullTd : TrackDict :=
  [("id", .str "x"), ("name", .str "Song"), ("popularity", .int 0),
   ("explicit", .bool false), ("duration_ms", .int 0),
   ("album_name", .str "Unknown Album"),
   ("album_release_date", .str "Unknown Date"),
   ("artist_names", .str "A, B"), ("artist_ids", .str "a1"),
   ("lyrics", .str "WORDS")]

/-- C5: the lyrics fetch fires iff the joined artist-name string is
non-empty and the track name differs from the "Unknown Track" sentinel;
otherwise the record's lyrics field is null and the fetcher is not
invoked; and when no record is produced the fetcher is not invoked
either. -/
theorem c5_lyrics_trigger_iff (f : String → PyVal → Option String)
    (item : PyVal) :
    (∀ td b, get_track_data_full f item = (.ok (some td), b) →
      ∃ s nameV,
        td.lookup "artist_names" = some (PyVal.str s) ∧
        td.lookup "name" = some nameV ∧
        b = (s != "" && !(pyEqStr nameV "Unknown Track")) ∧
        (b = false → td.lookup "lyrics" = some PyVal.null) ∧
        (b = true → td.lookup "lyrics" = some (match f s nameV with
          | some l => PyVal.str l | Option.none => PyVal.null))) ∧
    (∀ res b, get_track_data_full f item = (res, b) →
      (∀ td, res ≠ .ok (some td)) → b = false) := by
  constructor
  · intro td b hfull
    unfold get_track_data_full at hfull
    split at hfull
    · simp at hfull
    rename_i track htr
    split at hfull
    case isFalse ht => simp at hfull
    case isTrue ht =>
    split at hfull
    · rename_i td' b' htb
      simp only [Prod.mk.injEq, Except.ok.injEq, Option.some.injEq] at hfull
      obtain ⟨h1, h2⟩ := hfull
      subst h1; subst h2
      obtain ⟨tid, artists, an, ai, tn, alb, pop, expl, dur, aln, ard,
        hid, htid, hartists, hnames, hids, hname, halbum, hpop, hexp, hdur,
        han, hard, hb, htd⟩ := tryBodyFull_ok_some htb
      refine ⟨an, tn, ?_, ?_, hb, ?_, ?_⟩
      · rw [htd]; rfl
      · rw [htd]; rfl
      · intro hbf; subst hbf; rw [htd]; rfl
      · intro hbt; subst hbt; rw [htd]; rfl
    · simp at hfull
    · simp at hfull
  · intro res b hfull hne
    unfold get_track_data_full at hfull
    split at hfull
    · rw [Prod.mk.injEq] at hfull; exact hfull.2.symm
    rename_i track htr
    split at hfull
    case isFalse ht => rw [Prod.mk.injEq] at hfull; exact hfull.2.symm
    case isTrue ht =>
    split at hfull
    · rename_i td' b' htb
      rw [Prod.mk.injEq] at hfull
      exact absurd hfull.1.symm (hne td')
    · rw [Prod.mk.injEq] at hfull; exact hfull.2.symm
    · rw [Prod.mk.injEq] at hfull; exact hfull.2.symm

/-- C5 witness: on `sampleFull` the fetch fires, the lyrics land in the
record, and the trigger condition evaluates as claimed. -/
theorem c5_lyrics_trigger_iff_witness :
    get_track_data_full someWords sampleFull = (.ok (some sampleFullTd), true) ∧
    ∃ s nameV,
      sampleFullTd.lookup "artist_names" = some (PyVal.str s) ∧
      sampleFullTd.lookup "name" = some nameV ∧
      (true : Bool) = (s != "" && !(pyEqStr nameV "Unknown Track")) := by
  refine ⟨rfl, ?_⟩
  obtain ⟨s, nameV, h1, h2, h3, _, _⟩ :=
    (c5_lyrics_trigger_iff someWords sampleFull).1 sampleFullTd true rfl
  exact ⟨s, nameV, h1, h2, h3⟩

/-- The record for a track dict carrying only a valid id. -/
def minimalTd : TrackDict :=
  [("id", .str "x"), ("name", .str "Unknown Track"), ("popularity", .int 0),
   ("explicit", .bool false), ("duration_ms", .int 0),
   ("album_name", .str "Unknown Album"),
   ("album_release_date", .str "Unknown Date"),
   ("artist_names", .str ""), ("artist_ids", .str ""),
   ("lyrics", PyVal.null)]

/-- The record for a track dict whose `popularity` key is present but
null: `dict.get` only substitutes the default for an absent key. -/
def nullPopTd : TrackDict :=
  [("id", .str "x"), ("name", .str "Unknown Track"), ("popularity", PyVal.null),
   ("explicit", .bool false), ("duration_ms", .int 0),
   ("album_name", .str "Unknown Album"),
   ("album_release_date", .str "Unknown Date"),
   ("artist_names", .str ""), ("artist_ids", .str ""),
   ("lyrics", PyVal.null)]

/-- C6 counterexample: an entry whose track has `popularity`
explicitly null yields a record whose `popularity` field is null — the
eight base fields are NOT "never null". -/
theorem c6_counterexample_null_popularity :
    get_track_data noLyrics (.dict [("track", .dict [("id", .str "x"),
      ("popularity", PyVal.null)])]) = .ok (some nullPopTd) ∧
    nullPopTd.lookup "popularity" = some PyVal.null :=
  ⟨rfl, rfl⟩

/-- C6 amended: in every record the ten fields (the eight base fields,
plus id and lyrics) are present, each base field whose source key is
absent receives its default, and the joined artist fields are always
strings; but a source field explicitly set to null passes through as
null. -/
theorem c6_amended_fields_present (f : String → PyVal → Option String)
    (ekvs tkvs : List (String × PyVal)) (td : TrackDict)
    (he : ekvs.lookup "track" = some (.dict tkvs))
    (h : get_track_data f (.dict ekvs) = .ok (some td)) :
    td.map Prod.fst = ["id", "name", "popularity", "explicit", "duration_ms",
      "album_name", "album_release_date", "artist_names", "artist_ids",
      "lyrics"] ∧
    (tkvs.lookup "popularity" = Option.none →
      td.lookup "popularity" = some (.int 0)) ∧
    (tkvs.lookup "explicit" = Option.none →
      td.lookup "explicit" = some (.bool false)) ∧
    (tkvs.lookup "duration_ms" = Option.none →
      td.lookup "duration_ms" = some (.int 0)) ∧
    (tkvs.lookup "name" = Option.none →
      td.lookup "name" = some (.str "Unknown Track")) ∧
    (tkvs.lookup "album" = Option.none →
      td.lookup "album_name" = some (.str "Unknown Album") ∧
      td.lookup "album_release_date" = some (.str "Unknown Date")) ∧
    (∃ s, td.lookup "artist_names" = some (.str s)) ∧
    (∃ s, td.lookup "artist_ids" = some (.str s)) := by
  have htrack : pyGet (.dict ekvs) "track" PyVal.null = .ok (.dict tkvs) := by
    simp [pyGet, he]
  unfold get_track_data get_track_data_full at h
  split at h
  · rename_i e htr
    rw [htrack] at htr; cases htr
  rename_i track htr
  have htk : track = .dict tkvs := by
    have := htr.symm.trans htrack
    exact (Except.ok.injEq _ _).mp this
  subst htk
  split at h
  case isFalse ht => simp at h
  case isTrue ht =>
  split at h
  · rename_i td' b' htb
    simp only [Except.ok.injEq, Option.some.injEq] at h
    subst h
    obtain ⟨tid, artists, an, ai, tn, alb, pop, expl, dur, aln, ard,
      hid, htid, hartists, hnames, hids, hname, halbum, hpop, hexp, hdur,
      han, hard, hb, htd⟩ := tryBodyFull_ok_some htb
    refine ⟨by rw [htd]; rfl, ?_, ?_, ?_, ?_, ?_, ?_, ?_⟩
    · intro hnone
      simp only [pyGet, hnone, Option.getD, Except.ok.injEq] at hpop
      rw [htd, ← hpop]; rfl
    · intro hnone
      simp only [pyGet, hnone, Option.getD, Except.ok.injEq] at hexp
      rw [htd, ← hexp]; rfl
    · intro hnone
      simp only [pyGet, hnone, Option.getD, Except.ok.injEq] at hdur
      rw [htd, ← hdur]; rfl
    · intro hnone
      simp only [pyGet, hnone, Option.getD, Except.ok.injEq] at hname
      rw [htd, ← hname]; rfl
    · intro hnone
      simp only [pyGet, hnone, Option.getD, Except.ok.injEq] at halbum
      rw [← halbum] at han hard
      simp only [albumField, truthy] at han hard
      simp only [List.isEmpty_nil, Bool.not_true, Bool.false_eq_true,
        if_false, Except.ok.injEq] at han hard
      constructor
      · rw [htd, ← han]; rfl
      · rw [htd, ← hard]; rfl
    · exact ⟨an, by rw [htd]; rfl⟩
    · exact ⟨ai, by rw [htd]; rfl⟩
  · simp at h
  · simp at h

/-- C6 amended witness: a minimal entry (only an id) produces the
all-defaults record. -/
theorem c6_amended_fields_present_witness :
    ([("track", PyVal.dict [("id", PyVal.str "x")])].lookup "track" =
      some (.dict [("id", PyVal.str "x")])) ∧
    get_track_data noLyrics (.dict [("track", .dict [("id", .str "x")])]) =
      .ok (some minimalTd) ∧
    minimalTd.lookup "popularity" = some (.int 0) ∧
    minimalTd.map Prod.fst = ["id", "name", "popularity", "explicit",
      "duration_ms", "album_name", "album_release_date", "artist_names",
      "artist_ids", "lyrics"] := by
  refine ⟨rfl, rfl, ?_, ?_⟩
  · exact ((c6_amended_fields_present noLyrics
      [("track", PyVal.dict [("id", PyVal.str "x")])] [("id", PyVal.str "x")]
      minimalTd rfl rfl).2.1 rfl)
  · exact (c6_amended_fields_present noLyrics
      [("track", PyVal.dict [("id", PyVal.str "x")])] [("id", PyVal.str "x")]
      minimalTd rfl rfl).1

/-- A Genius provider with one hit. -/
def oneHit : PyVal → String → Except Unit (List Song) :=
  fun _ _ => .ok [⟨"LYR"⟩]

/-- A Genius provider that raises. -/
def raisingGenius : PyVal → String → Except Unit (List Song) :=
  fun _ _ => .error ()

/-- C7: `get_lyrics` returns the first hit's lyric text on a successful
search with a match, null on no match, and null on any provider raise;
being a total function into `Option String` it never raises, so with it
as the fetcher any dict entry still yields a non-raising
`get_track_data`. -/
theorem c7_get_lyrics_best_effort (g : PyVal → String → Except Unit (List Song))
    (artist : String) (title : PyVal) :
    (∀ e, g title artist = .error e → get_lyrics g artist title = Option.none) ∧
    (g title artist = .ok [] → get_lyrics g artist title = Option.none) ∧
    (∀ s rest, g title artist = .ok (s :: rest) →
      get_lyrics g artist title = some s.lyrics) ∧
    (∀ item, isDict item = true →
      ∃ r, get_track_data (fun a t => get_lyrics g a t) item = .ok r) := by
  refine ⟨?_, ?_, ?_, ?_⟩
  · intro e hg; unfold get_lyrics; rw [hg]
  · intro hg; unfold get_lyrics; rw [hg]; rfl
  · intro s rest hg; unfold get_lyrics; rw [hg]; rfl
  · intro item hd; exact get_track_data_ok_of_dict _ item hd

/-- C7 witness: a hit yields its text, a raise yields null, and a dict
entry completes. -/
theorem c7_get_lyrics_best_effort_witness :
    get_lyrics oneHit "A" (.str "T") = some "LYR" ∧
    get_lyrics raisingGenius "A" (.str "T") = Option.none ∧
    (∃ r, get_track_data (fun a t => get_lyrics oneHit a t) sampleValid =
      .ok r) :=
  ⟨(c7_get_lyrics_best_effort oneHit "A" (.str "T")).2.2.1 ⟨"LYR"⟩ [] rfl,
   (c7_get_lyrics_best_effort raisingGenius "A" (.str "T")).1 () rfl,
   (c7_get_lyrics_best_effort oneHit "A" (.str "T")).2.2.2 sampleValid
     (by decide)⟩

/-- C8 counterexample: an entry whose `artists` value is malformed
beyond iteration (an integer) is NOT turned into a record with an empty
artist string — the extraction raises, the raise is caught, and the
entry is skipped (null). -/
theorem c8_counterexample_nonlist_artists :
    get_track_data noLyrics (.dict badArtistsKvs) = .ok Option.none := rfl

/-- C8 amended: an absent artist list (default `[]`) and an artist list
none of whose elements are dicts both yield an empty joined string, and
the entry still becomes a record; but an `artists` value that cannot be
iterated raises inside extraction, and the entry is skipped (converted
to null) rather than aborting the run. -/
theorem c8_amended_artist_extraction (f : String → PyVal → Option String)
    (xs : List PyVal) (n : Int) (hxs : xs.filter isDict = []) :
    extractArtistNames (PyVal.list []) = .ok "" ∧
    extractArtistNames (PyVal.list xs) = .ok "" ∧
    pyIter (PyVal.int n) = .error () ∧
    get_track_data f (.dict [("track", .dict [("id", .str "x"),
      ("artists", .int n)])]) = .ok Option.none ∧
    ∃ td, get_track_data f (.dict [("track", .dict [("id", .str "x")])]) =
      .ok (some td) ∧ td.lookup "artist_names" = some (.str "") := by
  refine ⟨rfl, ?_, rfl, rfl, ?_⟩
  · simp only [extractArtistNames, pyIter, hxs]
    rfl
  · refine ⟨[("id", .str "x"), ("name", .str "Unknown Track"),
      ("popularity", .int 0), ("explicit", .bool false),
      ("duration_ms", .int 0), ("album_name", .str "Unknown Album"),
      ("album_release_date", .str "Unknown Date"), ("artist_names", .str ""),
      ("artist_ids", .str ""), ("lyrics", PyVal.null)], rfl, rfl⟩

/-- C8 amended witness: a list with a single non-dict element joins to
the empty string; the non-iterable case skips the entry. -/
theorem c8_amended_artist_extraction_witness :
    ([PyVal.str "nodict"].filter isDict = []) ∧
    extractArtistNames (PyVal.list [PyVal.str "nodict"]) = .ok "" ∧
    get_track_data noLyrics (.dict [("track", .dict [("id", .str "x"),
      ("artists", .int 5)])]) = .ok Option.none :=
  ⟨rfl, (c8_amended_artist_extraction noLyrics [PyVal.str "nodict"] 5 rfl).2.1,
   (c8_amended_artist_extraction noLyrics [PyVal.str "nodict"] 5
     rfl).2.2.2.1⟩

/-- The record produced for `sampleValid`. -/
def sampleValidTd : TrackDict :=
  [("id", .str "t1"), ("name", .str "Unknown Track"), ("popularity", .int 0),
   ("explicit", .bool false), ("duration_ms", .int 0),
   ("album_name", .str "Unknown Album"),
   ("album_release_date", .str "Unknown Date"),
   ("artist_names", .str ""), ("artist_ids", .str ""),
   ("lyrics", PyVal.null)]

/-- C9 counterexample: for the bare filename `"out.csv"`,
`os.path.dirname` is empty and `os.makedirs('')` raises, so the run
aborts before any write — the claim fails for this output path. -/
theorem c9_counterexample_bare_filename :
    collect_playlist_data noLyrics ⟨[sampleValid], false⟩ [] ⟨[], []⟩
      "out.csv" = .error () := rfl

/-- C9 amended: for every output path with a non-empty parent component,
the run creates the parent directory and then writes the dataset there —
the write cannot fail for want of the parent — and returns the rows. -/
theorem c9_amended_write_after_makedirs (f : String → PyVal → Option String)
    (p : Page PyVal) (ps : List (Page PyVal)) (fs : FS) (out : String)
    (rows : List TrackDict) (sleeps : List Nat)
    (h1 : dirname out ≠ "")
    (h2 : processEntries f (get_playlist_tracks p ps) = .ok (rows, sleeps)) :
    collect_playlist_data f p ps fs out =
      .ok ({ dirs := dirname out :: fs.dirs,
             files := (out, rows) :: fs.files }, rows) := by
  unfold collect_playlist_data
  rw [h2]
  simp only [makedirs, if_neg h1]
  simp [to_csv, List.contains_cons]

/-- C9 amended witness: writing to `"data/out.csv"` from an empty
filesystem creates `"data"` and lands the file. -/
theorem c9_amended_write_after_makedirs_witness :
    dirname "data/out.csv" ≠ "" ∧
    processEntries noLyrics
      (get_playlist_tracks (⟨[sampleValid], false⟩ : Page PyVal) []) =
      .ok ([sampleValidTd], []) ∧
    collect_playlist_data noLyrics ⟨[sampleValid], false⟩ [] ⟨[], []⟩
      "data/out.csv" =
      .ok (⟨["data"], [("data/out.csv", [sampleValidTd])]⟩, [sampleValidTd]) :=
  ⟨by decide, rfl,
   c9_amended_write_after_makedirs noLyrics ⟨[sampleValid], false⟩ [] ⟨[], []⟩
     "data/out.csv" [sampleValidTd] [] (by decide) rfl⟩

theorem processFrom_error_of_error (f : String → PyVal → Option String)
    (es : List PyVal) (e : PyVal) (he : e ∈ es)
    (herr : get_track_data f e = .error ()) :
    ∀ i, processFrom f i es = .error () := by
  induction es with
  | nil => cases he
  | cons a rest ih =>
    intro i
    rcases List.mem_cons.mp he with rfl | hrest
    · unfold processFrom; rw [herr]
    · unfold processFrom
      rcases hg : get_track_data f a with er | r
      · cases er; rfl
      · rw [ih hrest (i + 1)]

/-- C10: a playlist entry that is itself `None` makes `get_track_data`
raise at the pre-`try` track lookup; the loop propagates the raise, and
`collect_playlist_data` aborts instead of skipping the entry. -/
theorem c10_null_entry_propagates (f : String → PyVal → Option String)
    (es : List PyVal) (h : PyVal.null ∈ es) :
    get_track_data f PyVal.null = .error () ∧
    processEntries f es = .error () ∧
    (∀ p ps fs out, get_playlist_tracks p ps = es →
      collect_playlist_data f p ps fs out = .error ()) := by
  have herr : get_track_data f PyVal.null = .error () := rfl
  have hes : processEntries f es = .error () :=
    processFrom_error_of_error f es PyVal.null h herr 0
  refine ⟨herr, hes, ?_⟩
  intro p ps fs out hpp
  unfold collect_playlist_data
  rw [show processEntries f (get_playlist_tracks p ps) = .error () from
    hpp ▸ hes]

/-- C10 witness: a one-entry playlist consisting of a `None` entry
aborts the whole collection run. -/
theorem c10_null_entry_propagates_witness :
    get_track_data noLyrics PyVal.null = .error () ∧
    processEntries noLyrics [PyVal.null] = .error () ∧
    collect_playlist_data noLyrics ⟨[PyVal.null], false⟩ [] ⟨[], []⟩
      "data/out.csv" = .error () :=
  ⟨(c10_null_entry_propagates noLyrics [PyVal.null] (List.Mem.head _)).1,
   (c10_null_entry_propagates noLyrics [PyVal.null] (List.Mem.head _)).2.1,
   (c10_null_entry_propagates noLyrics [PyVal.null] (List.Mem.head _)).2.2
     ⟨[PyVal.null], false⟩ [] ⟨[], []⟩ "data/out.csv" rfl⟩
